import Mathlib

/-!
Shallow embedding of the chat orchestration layer of `src/app/page.tsx`
(the `ChatApp` component): the send-message pipeline (`handleSendMessage`),
thread creation (`handleNewChat`), thread deletion (`handleDeleteChat`),
the thread-list subscription callback, and the message-subscription effect.

External asynchronous effects (Firestore writes, the completion-endpoint
fetch) are modelled by an environment record that fixes each effect's
outcome; each handler is a pure function from the component state and the
environment to the final state plus the trace of committed store writes.
JavaScript `undefined` for a possibly-absent field is modelled as `none`.
-/

namespace T3Chat

/-- The `role` field of a message: the string union `'user' | 'model'`. -/
inductive Role where
  | user
  | model
deriving DecidableEq, Repr

/-- The `Message` interface: a cached message document. Firestore
`Timestamp` is modelled as `Nat`. -/
structure Message where
  id : String
  text : String
  role : Role
  timestamp : Nat
deriving DecidableEq, Repr

/-- The `Chat` interface: a cached thread document. -/
structure Chat where
  id : String
  title : String
  createdAt : Nat
deriving DecidableEq, Repr

/-- The React state of `ChatApp`: `user`, `chats`, `activeChatId`,
`messages`, `input`, `isLoading`. `user` is the uid, `none` before
sign-in. -/
structure AppState where
  user : Option String
  chats : List Chat
  activeChatId : Option String
  messages : List Message
  input : String
  isLoading : Bool
deriving DecidableEq, Repr

/-- One `parts` element of the Gemini response; the code never checks that
the `text` field is present, so it is an `Option`. -/
structure GeminiPart where
  text : Option String
deriving DecidableEq, Repr

/-- The `content` object of a response candidate; `parts` may be absent. -/
structure GeminiContent where
  parts : Option (List GeminiPart)
deriving DecidableEq, Repr

/-- One element of the response `candidates` array; `content` may be
absent. -/
structure GeminiCandidate where
  content : Option GeminiContent
deriving DecidableEq, Repr

/-- The parsed JSON body returned by the completion endpoint; the
`candidates` array may be absent. -/
structure GeminiResult where
  candidates : Option (List GeminiCandidate)
deriving DecidableEq, Repr

/-- One `{ text }` object inside a request `parts` array. -/
structure ReqPart where
  text : String
deriving DecidableEq, Repr

/-- One `{ role, parts }` element of the request `contents` array. -/
structure ReqContent where
  role : Role
  parts : List ReqPart
deriving DecidableEq, Repr

/-- The request body `{ contents: [...] }` sent to the completion
endpoint. -/
structure Payload where
  contents : List ReqContent
deriving DecidableEq, Repr

deriving instance DecidableEq for Except

/-- Outcome of the `fetch` call: either the promise rejects (network
error) with an error message, or a response arrives with a `status` and a
body whose `json()` parse either rejects with a message or yields a
`GeminiResult`. -/
inductive FetchOutcome where
  | netErr (msg : String)
  | resp (status : Nat) (body : Except String GeminiResult)
deriving DecidableEq, Repr

/-- `response.ok`: status in the 2xx range. -/
def respOk (status : Nat) : Prop := 200 ≤ status ∧ status < 300

instance (status : Nat) : Decidable (respOk status) := by
  unfold respOk
  infer_instance

/-- Environment fixing the outcome of each asynchronous effect a single
`handleSendMessage` call can perform, plus the `Timestamp.now()` values
observed at each write site. -/
structure SendEnv where
  userWrite : Except String Unit
  fetch : FetchOutcome
  modelWrite : Except String Unit
  errorWrite : Except String Unit
  userNow : Nat
  modelNow : Nat
  errorNow : Nat
deriving DecidableEq, Repr

/-- A message document as passed to `addDoc` (`Omit<Message, 'id'>`).
`text` is `Option` because the model-response extraction can produce
JavaScript `undefined`. -/
structure MsgWrite where
  text : Option String
  role : Role
  timestamp : Nat
deriving DecidableEq, Repr

/-- Result of a `handleSendMessage` call: the final component state, the
trace of message documents committed to the active thread's message
collection (in write order), the payload handed to `fetch` (if the fetch
was reached), whether the returned promise resolved (`ok`) or rejected
with an error message, and the component state while the user-message
`addDoc` was awaited (if that write was issued). -/
structure SendResult where
  state : AppState
  writes : List MsgWrite
  sentPayload : Option Payload
  outcome : Except String Unit
  stateAtUserWrite : Option AppState
deriving DecidableEq, Repr

/-- JavaScript `String.prototype.trim`: strip leading and trailing
whitespace characters. -/
def jsTrim (s : String) : String :=
  ⟨((s.data.dropWhile Char.isWhitespace).reverse.dropWhile
      Char.isWhitespace).reverse⟩

/-- The fixed fallback text used when the response guard chain fails. -/
def fallbackResponse : String := "Sorry, I couldn't generate a response."

/-- The extraction of the model reply text from the parsed response:
`modelResponse` starts as the fallback and is overwritten with
`result.candidates[0].content.parts[0].text` when the guard chain
`candidates && candidates.length > 0 && candidates[0].content &&
candidates[0].content.parts && parts.length > 0` passes; the guard does
not check the `text` field, so the extracted value may be `undefined`
(`none`). -/
def extractModelResponse (result : GeminiResult) : Option String :=
  match result.candidates with
  | some (c :: _) =>
    match c.content with
    | some content =>
      match content.parts with
      | some (p :: _) => p.text
      | _ => some fallbackResponse
    | none => some fallbackResponse
  | _ => some fallbackResponse

/-- The first part of the first candidate, when the whole
`candidates[0].content.parts[0]` chain that the code's guard tests is
present: the responses on which the code overwrites the fallback. -/
def firstPart (result : GeminiResult) : Option GeminiPart :=
  match result.candidates with
  | some (c :: _) =>
    match c.content with
    | some content =>
      match content.parts with
      | some (p :: _) => some p
      | _ => none
    | none => none
  | _ => none

/-- `chatHistory`: the cached messages mapped to `{role, parts:[{text}]}`
with the new user message pushed at the end, wrapped as
`{ contents: chatHistory }`. -/
def buildPayload (messages : List Message) (userInput : String) : Payload :=
  ⟨(messages.map fun m => ⟨m.role, [⟨m.text⟩]⟩) ++ [⟨Role.user, [⟨userInput⟩]⟩]⟩

/-- The guard of `handleSendMessage`:
`!input.trim() || !user || !activeChatId || isLoading`. -/
def sendRejects (s : AppState) : Prop :=
  jsTrim s.input = "" ∨ s.user = none ∨ s.activeChatId = none ∨ s.isLoading = true

instance (s : AppState) : Decidable (sendRejects s) := by
  unfold sendRejects
  infer_instance

/-- `handleSendMessage` from `src/app/page.tsx`: guard; clear `input`; set
`isLoading`; await the user-message `addDoc` (outside the try block, so
its failure rejects the whole call with `isLoading` still set); inside the
try block build the payload from the cached `messages` plus the trimmed
input, `fetch` the completion endpoint, throw on a non-2xx status, parse,
extract the model reply, and `addDoc` the model message; in the catch
block `addDoc` an `"Error: " + message` model message; in the finally
block clear `isLoading`. -/
def handleSendMessage (s : AppState) (env : SendEnv) : SendResult :=
  if sendRejects s then
    ⟨s, [], none, Except.ok (), none⟩
  else
    let userInput := jsTrim s.input
    let s1 : AppState := { s with input := "", isLoading := true }
    let userMsg : MsgWrite := ⟨some userInput, Role.user, env.userNow⟩
    match env.userWrite with
    | Except.error msg => ⟨s1, [], none, Except.error msg, some s1⟩
    | Except.ok _ =>
      let payload := buildPayload s.messages userInput
      let afterCatch := fun (msg : String) =>
        let errMsg : MsgWrite := ⟨some ("Error: " ++ msg), Role.model, env.errorNow⟩
        match env.errorWrite with
        | Except.ok _ =>
          SendResult.mk { s1 with isLoading := false } [userMsg, errMsg]
            (some payload) (Except.ok ()) (some s1)
        | Except.error m2 =>
          SendResult.mk { s1 with isLoading := false } [userMsg]
            (some payload) (Except.error m2) (some s1)
      match env.fetch with
      | FetchOutcome.netErr msg => afterCatch msg
      | FetchOutcome.resp status body =>
        if respOk status then
          match body with
          | Except.error msg => afterCatch msg
          | Except.ok result =>
            let modelMsg : MsgWrite :=
              ⟨extractModelResponse result, Role.model, env.modelNow⟩
            match env.modelWrite with
            | Except.error msg => afterCatch msg
            | Except.ok _ =>
              ⟨{ s1 with isLoading := false }, [userMsg, modelMsg],
                some payload, Except.ok (), some s1⟩
        else
          afterCatch ("API call failed with status: " ++ toString status)

/-- A chat document as passed to `addDoc` in `handleNewChat`:
`{ title: "New Chat", createdAt: Timestamp.now() }`. -/
structure ChatWrite where
  title : String
  createdAt : Nat
deriving DecidableEq, Repr

/-- Environment for one `handleNewChat` call: the outcome of the chat
`addDoc` (the generated document id on success) and the `Timestamp.now()`
value. -/
structure NewChatEnv where
  addResult : Except String String
  now : Nat
deriving DecidableEq, Repr

/-- Result of a `handleNewChat` call (also used for the thread-list
snapshot callback, which may invoke it): the final state, the trace of
chat documents committed to the chats collection, and the component state
while the `addDoc` was awaited. -/
structure NewChatResult where
  state : AppState
  writes : List ChatWrite
  duringWrite : AppState
deriving DecidableEq, Repr

/-- `handleNewChat` from `src/app/page.tsx`: return if no user; set
`isLoading`; `addDoc` `{title: "New Chat", createdAt: now}`; on success
select the new document id as the active chat; on error only log; in the
finally block clear `isLoading`. -/
def handleNewChat (s : AppState) (env : NewChatEnv) : NewChatResult :=
  if s.user = none then
    ⟨s, [], s⟩
  else
    let pending : AppState := { s with isLoading := true }
    match env.addResult with
    | Except.ok docId =>
      ⟨{ pending with activeChatId := some docId, isLoading := false },
        [⟨"New Chat", env.now⟩], pending⟩
    | Except.error _ =>
      ⟨{ pending with isLoading := false }, [], pending⟩

/-- The `onSnapshot` callback of the chats subscription (the fetch-chats
effect, active only with a signed-in user): `setChats(fetchedChats)`;
if no chat is selected and the list is non-empty, select the first; else
if the snapshot is empty, call `handleNewChat`. -/
def handleThreadsSnapshot (s : AppState) (pushed : List Chat)
    (env : NewChatEnv) : NewChatResult :=
  let s1 : AppState := { s with chats := pushed }
  match pushed with
  | c :: _ =>
    if s.activeChatId = none then
      ⟨{ s1 with activeChatId := some c.id }, [], s1⟩
    else
      ⟨s1, [], s1⟩
  | [] => handleNewChat s1 env

/-- Environment for one `handleDeleteChat` call: whether the `deleteDoc`
promise resolves. -/
structure DeleteEnv where
  deleteOk : Bool
deriving DecidableEq, Repr

/-- Result of a `handleDeleteChat` call: the final state and the ids of
the chat documents deleted from the store. -/
structure DeleteResult where
  state : AppState
  deleted : List String
deriving DecidableEq, Repr

/-- `handleDeleteChat` from `src/app/page.tsx`: return if no user; await
`deleteDoc` of the chat document (only the thread record — messages are
not cascade-deleted); if the deleted id was the active selection, select
the first of the cached chats with that id filtered out, or `none` when
none remain; a `deleteDoc` rejection is caught and only logged. -/
def handleDeleteChat (s : AppState) (chatId : String)
    (env : DeleteEnv) : DeleteResult :=
  if s.user = none then
    ⟨s, []⟩
  else if env.deleteOk then
    if s.activeChatId = some chatId then
      match s.chats.filter (fun c => c.id ≠ chatId) with
      | c :: _ => ⟨{ s with activeChatId := some c.id }, [chatId]⟩
      | [] => ⟨{ s with activeChatId := none }, [chatId]⟩
    else
      ⟨s, [chatId]⟩
  else
    ⟨s, []⟩

/-- The message-sync slice of the component: which message subscription is
open (`some (uid, chatId)` keys the `onSnapshot` listener on
`.../users/uid/chats/chatId/messages`) and the cached `messages` state. -/
structure MsgSyncState where
  sub : Option (String × String)
  messages : List Message
deriving DecidableEq, Repr

/-- One run of the fetch-messages effect after its dependencies
`(activeChatId, user)` change. React runs the previous effect's cleanup
(the returned `unsubscribe`) before the new body, so the old subscription
is torn down first; then the body clears the message cache and returns if
`activeChatId` or `user` is absent, and otherwise subscribes to the new
thread's message collection. -/
def runMessagesEffect (st : MsgSyncState) (user : Option String)
    (activeChatId : Option String) : MsgSyncState :=
  let st1 : MsgSyncState := { st with sub := none }
  match activeChatId, user with
  | some c, some u => { st1 with sub := some (u, c) }
  | _, _ => { st1 with messages := [] }

/-- Delivery of a message-subscription push keyed by the subscription it
belongs to: Firestore delivers a snapshot only to a listener that is still
registered, so a push for a torn-down subscription is discarded; a push
for the live subscription replaces the message cache in full
(`setMessages(fetchedMessages)`). -/
def applyMessagesPush (st : MsgSyncState) (key : String × String)
    (msgs : List Message) : MsgSyncState :=
  if st.sub = some key then { st with messages := msgs } else st

/-! ## Helper lemmas -/

/-- A rejected `handleSendMessage` call returns the unchanged state, an
empty write trace, no payload, and a resolved promise. -/
theorem handleSendMessage_of_rejects (s : AppState) (env : SendEnv)
    (h : sendRejects s) :
    handleSendMessage s env = ⟨s, [], none, Except.ok (), none⟩ := by
  unfold handleSendMessage
  rw [if_pos h]

/-- When the guard passes but the user-message `addDoc` rejects, the call
rejects with `isLoading` still set and nothing committed. -/
theorem handleSendMessage_of_userWrite_error (s : AppState) (env : SendEnv)
    (h : ¬ sendRejects s) (msg : String)
    (hw : env.userWrite = Except.error msg) :
    handleSendMessage s env =
      ⟨{ s with input := "", isLoading := true }, [], none, Except.error msg,
        some { s with input := "", isLoading := true }⟩ := by
  unfold handleSendMessage
  rw [if_neg h]
  rw [hw]

/-- When the guard passes and the user-message `addDoc` resolves, the call
always finishes with `input` cleared and `isLoading` cleared, records the
state at the user write, and hands `fetch` the payload built from the
cached messages plus the trimmed input — for every fetch and write
outcome. -/
theorem handleSendMessage_run (s : AppState) (env : SendEnv)
    (h : ¬ sendRejects s) (hw : env.userWrite = Except.ok ()) :
    (handleSendMessage s env).state = { s with input := "", isLoading := false } ∧
    (handleSendMessage s env).stateAtUserWrite
      = some { s with input := "", isLoading := true } ∧
    (handleSendMessage s env).sentPayload
      = some (buildPayload s.messages (jsTrim s.input)) := by
  unfold handleSendMessage
  rw [if_neg h, hw]
  rcases hf : env.fetch with msg | ⟨status, body⟩
  · rcases he : env.errorWrite with m2 | v <;> exact ⟨rfl, rfl, rfl⟩
  · rcases body with bmsg | result <;>
      rcases hm : env.modelWrite with mmsg | mv <;>
      rcases he : env.errorWrite with emsg | ev <;>
      by_cases hst : respOk status <;>
      simp [hst]

/-! ## Claim theorems -/

/-- C1: for every call `sendMessage(text)`, if the text is empty or
whitespace-only, or no identity is resolved, or no thread is selected, or
a send is already in flight, the call is a no-op: no store write occurs
and the component state — the pipeline flag included — is unchanged, so an
idle pipeline stays idle. -/
theorem sendMessage_rejected_is_noop (s : AppState) (env : SendEnv)
    (h : sendRejects s) :
    (handleSendMessage s env).state = s ∧
    (handleSendMessage s env).writes = [] ∧
    (handleSendMessage s env).state.isLoading = s.isLoading := by
  rw [handleSendMessage_of_rejects s env h]
  exact ⟨rfl, rfl, rfl⟩

/-- Evaluation of C1 at the whitespace-only input `"   "` with an identity
and a thread resolved and the pipeline idle. -/
theorem sendMessage_rejected_is_noop_witness :
    (handleSendMessage ⟨some "u1", [], some "c1", [], "   ", false⟩
        ⟨Except.ok (), FetchOutcome.netErr "x", Except.ok (), Except.ok (),
          0, 0, 0⟩).state
      = ⟨some "u1", [], some "c1", [], "   ", false⟩ ∧
    (handleSendMessage ⟨some "u1", [], some "c1", [], "   ", false⟩
        ⟨Except.ok (), FetchOutcome.netErr "x", Except.ok (), Except.ok (),
          0, 0, 0⟩).writes = [] ∧
    (handleSendMessage ⟨some "u1", [], some "c1", [], "   ", false⟩
        ⟨Except.ok (), FetchOutcome.netErr "x", Except.ok (), Except.ok (),
          0, 0, 0⟩).state.isLoading
      = (⟨some "u1", [], some "c1", [], "   ", false⟩ : AppState).isLoading :=
  sendMessage_rejected_is_noop _ _ (by decide)

/-- C2 counterexample: a `sendMessage` call that passes every precondition
but whose user-message store write fails. The write is awaited outside the
try/finally block, so the call rejects before the finally step and the
pipeline flag is left set to `sending`, not `idle`. -/
theorem sendMessage_not_idle_on_userWrite_failure :
    ¬ sendRejects ⟨some "u1", [], some "c1", [], "hi", false⟩ ∧
    (⟨Except.error "write failed", FetchOutcome.netErr "x", Except.ok (),
        Except.ok (), 0, 0, 0⟩ : SendEnv).userWrite
      = Except.error "write failed" ∧
    (handleSendMessage ⟨some "u1", [], some "c1", [], "hi", false⟩
        ⟨Except.error "write failed", FetchOutcome.netErr "x", Except.ok (),
          Except.ok (), 0, 0, 0⟩).state.isLoading = true ∧
    (handleSendMessage ⟨some "u1", [], some "c1", [], "hi", false⟩
        ⟨Except.error "write failed", FetchOutcome.netErr "x", Except.ok (),
          Except.ok (), 0, 0, 0⟩).outcome
      = Except.error "write failed" := by
  refine ⟨by decide, rfl, by decide, by decide⟩

/-- C2 (amended): for every `sendMessage` call that passes its
preconditions and whose user-message store write succeeds, the pipeline
flag is `idle` when the call completes regardless of the outcome of the
completion request and of any model-message store write; when the
user-message write itself fails, the call instead rejects with the flag
still `sending`. -/
theorem sendMessage_idle_after_userWrite (s : AppState) (env : SendEnv)
    (h : ¬ sendRejects s) (hw : env.userWrite = Except.ok ()) :
    (handleSendMessage s env).state.isLoading = false := by
  rw [(handleSendMessage_run s env h hw).1]

/-- Evaluation of C2 (amended) at a concrete call whose completion request
fails with a network error. -/
theorem sendMessage_idle_after_userWrite_witness :
    (handleSendMessage ⟨some "u1", [], some "c1", [], "hi", false⟩
        ⟨Except.ok (), FetchOutcome.netErr "network down", Except.ok (),
          Except.ok (), 0, 0, 0⟩).state.isLoading = false :=
  sendMessage_idle_after_userWrite _ _ (by decide) rfl

/-- C9: for every `sendMessage` call that passes its preconditions, the
exposed input-text state is cleared to empty before the user-message write
is issued (the state at the write has `input = ""`), and the final state's
input is still empty for every outcome of the write, the completion
request, and the model-message write — the submitted text is never
restored. -/
theorem sendMessage_clears_input (s : AppState) (env : SendEnv)
    (h : ¬ sendRejects s) :
    (handleSendMessage s env).stateAtUserWrite
      = some { s with input := "", isLoading := true } ∧
    (handleSendMessage s env).state.input = "" := by
  rcases hw : env.userWrite with msg | v
  · rw [handleSendMessage_of_userWrite_error s env h msg hw]
    exact ⟨rfl, rfl⟩
  · cases v
    have := handleSendMessage_run s env h hw
    rw [this.1, this.2.1]
    exact ⟨rfl, rfl⟩

/-- Evaluation of C9 at a concrete call whose user-message write fails. -/
theorem sendMessage_clears_input_witness :
    (handleSendMessage ⟨some "u1", [], some "c1", [], " hello ", false⟩
        ⟨Except.error "boom", FetchOutcome.netErr "x", Except.ok (),
          Except.ok (), 0, 0, 0⟩).stateAtUserWrite
      = some { (⟨some "u1", [], some "c1", [], " hello ", false⟩ : AppState)
                 with input := "", isLoading := true } ∧
    (handleSendMessage ⟨some "u1", [], some "c1", [], " hello ", false⟩
        ⟨Except.error "boom", FetchOutcome.netErr "x", Except.ok (),
          Except.ok (), 0, 0, 0⟩).state.input = "" :=
  sendMessage_clears_input _ _ (by decide)

/-- C7: for every `sendMessage` call that passes its preconditions and
issues its completion request, the request body is
`{ contents: [...] }` holding exactly the cached conversation history —
each prior message's role and text, oldest first, each as
`{role, parts:[{text}]}` — with the new user message (the trimmed input)
appended as the last element. -/
theorem sendMessage_payload_is_history_plus_user (s : AppState)
    (env : SendEnv) (h : ¬ sendRejects s)
    (hw : env.userWrite = Except.ok ()) :
    (handleSendMessage s env).sentPayload
      = some ⟨(s.messages.map fun m => ⟨m.role, [⟨m.text⟩]⟩)
          ++ [⟨Role.user, [⟨jsTrim s.input⟩]⟩]⟩ := by
  rw [(handleSendMessage_run s env h hw).2.2]
  rfl

/-- Evaluation of C7 at a concrete call with one cached model message. -/
theorem sendMessage_payload_is_history_plus_user_witness :
    (handleSendMessage
        ⟨some "u1", [], some "c1", [⟨"m1", "hey", Role.model, 0⟩], "hi", false⟩
        ⟨Except.ok (), FetchOutcome.netErr "x", Except.ok (), Except.ok (),
          0, 0, 0⟩).sentPayload
      = some ⟨([(⟨"m1", "hey", Role.model, 0⟩ : Message)].map
            fun m => ⟨m.role, [⟨m.text⟩]⟩)
          ++ [⟨Role.user, [⟨jsTrim "hi"⟩]⟩]⟩ :=
  sendMessage_payload_is_history_plus_user _ _ (by decide) rfl

/-- C3 counterexample: `sendMessage(" hi ")` against an endpoint returning
HTTP 500 appends the user entry with text `"hi"` — the trimmed input — not
the submitted text `" hi "`, so the log's first new entry is not
`{role: user, text}`. -/
theorem sendMessage_user_entry_is_trimmed :
    ¬ sendRejects ⟨some "u1", [], some "c1", [], " hi ", false⟩ ∧
    (handleSendMessage ⟨some "u1", [], some "c1", [], " hi ", false⟩
        ⟨Except.ok (), FetchOutcome.resp 500 (Except.error "parse"),
          Except.ok (), Except.ok (), 1, 2, 3⟩).writes
      = [⟨some "hi", Role.user, 1⟩,
         ⟨some "Error: API call failed with status: 500", Role.model, 3⟩] ∧
    ("hi" : String) ≠ " hi " := by
  refine ⟨by decide, by decide, by decide⟩

/-- C3 (amended): for every `sendMessage(text)` call passing its
preconditions where the completion endpoint returns a non-success status
and the two store writes succeed, the call resolves (no thrown exception)
and the message log gains exactly two entries: first
`{role: user, text: trim(text)}` and then a model entry whose text is
`"Error: "` followed by the failure message — the failure is surfaced as a
chat turn. -/
theorem sendMessage_non_success_surfaces_error (s : AppState)
    (env : SendEnv) (status : Nat) (body : Except String GeminiResult)
    (h : ¬ sendRejects s) (hw : env.userWrite = Except.ok ())
    (hf : env.fetch = FetchOutcome.resp status body)
    (hst : ¬ respOk status) (he : env.errorWrite = Except.ok ()) :
    (handleSendMessage s env).writes
      = [⟨some (jsTrim s.input), Role.user, env.userNow⟩,
         ⟨some ("Error: " ++ ("API call failed with status: "
             ++ toString status)), Role.model, env.errorNow⟩] ∧
    (handleSendMessage s env).outcome = Except.ok () := by
  unfold handleSendMessage
  rw [if_neg h, hw, hf]
  simp [hst, he]

/-- Evaluation of C3 (amended) at `sendMessage("hi")` against an endpoint
returning HTTP 500. -/
theorem sendMessage_non_success_surfaces_error_witness :
    (handleSendMessage ⟨some "u1", [], some "c1", [], "hi", false⟩
        ⟨Except.ok (), FetchOutcome.resp 500 (Except.error "parse"),
          Except.ok (), Except.ok (), 1, 2, 3⟩).writes
      = [⟨some (jsTrim "hi"), Role.user, 1⟩,
         ⟨some ("Error: " ++ ("API call failed with status: "
             ++ toString 500)), Role.model, 3⟩] ∧
    (handleSendMessage ⟨some "u1", [], some "c1", [], "hi", false⟩
        ⟨Except.ok (), FetchOutcome.resp 500 (Except.error "parse"),
          Except.ok (), Except.ok (), 1, 2, 3⟩).outcome = Except.ok () :=
  sendMessage_non_success_surfaces_error _ _ 500 _ (by decide) rfl rfl
    (by decide) rfl

/-- C4 counterexample: for the parseable but malformed response
`{candidates:[{content:{parts:[{}]}}]}` — the guard chain passes yet the
first part has no `text` field — the appended model message's text is the
undefined value, not the fixed fallback string, so extraction failure does
not always substitute the fallback. -/
theorem sendMessage_missing_text_skips_fallback :
    ¬ sendRejects ⟨some "u1", [], some "c1", [], "hi", false⟩ ∧
    (handleSendMessage ⟨some "u1", [], some "c1", [], "hi", false⟩
        ⟨Except.ok (),
          FetchOutcome.resp 200 (Except.ok ⟨some [⟨some ⟨some [⟨none⟩]⟩⟩]⟩),
          Except.ok (), Except.ok (), 1, 2, 3⟩).writes
      = [⟨some "hi", Role.user, 1⟩, ⟨none, Role.model, 2⟩] ∧
    (none : Option String) ≠ some fallbackResponse := by
  refine ⟨by decide, by decide, by decide⟩

/-- C4 (amended): for every completion response on which the guard chain
`candidates[0].content.parts[0]` is present and non-empty, the appended
model message's text is that first part's `text` field (the first
candidate's text when present, the undefined value when the part lacks
one); whenever the chain is missing or empty the appended text is exactly
the fixed fallback string. -/
theorem sendMessage_appends_extracted_response (s : AppState)
    (env : SendEnv) (status : Nat) (result : GeminiResult)
    (h : ¬ sendRejects s) (hw : env.userWrite = Except.ok ())
    (hf : env.fetch = FetchOutcome.resp status (Except.ok result))
    (hst : respOk status) (hm : env.modelWrite = Except.ok ()) :
    (handleSendMessage s env).writes
      = [⟨some (jsTrim s.input), Role.user, env.userNow⟩,
         ⟨extractModelResponse result, Role.model, env.modelNow⟩] ∧
    extractModelResponse result
      = (firstPart result).elim (some fallbackResponse) GeminiPart.text := by
  constructor
  · unfold handleSendMessage
    rw [if_neg h, hw, hf]
    simp [hst, hm]
  · unfold extractModelResponse firstPart
    rcases result with ⟨cands⟩
    rcases cands with _ | (_ | ⟨c, rest⟩)
    · rfl
    · rfl
    · rcases c with ⟨content⟩
      rcases content with _ | ⟨parts⟩
      · rfl
      · rcases parts with _ | (_ | ⟨p, ps⟩)
        · rfl
        · rfl
        · rfl

/-- Evaluation of C4 (amended) at `sendMessage("hi")` against the
well-formed response `{candidates:[{content:{parts:[{text:"Hello"}]}}]}`. -/
theorem sendMessage_appends_extracted_response_witness :
    (handleSendMessage ⟨some "u1", [], some "c1", [], "hi", false⟩
        ⟨Except.ok (),
          FetchOutcome.resp 200
            (Except.ok ⟨some [⟨some ⟨some [⟨some "Hello"⟩]⟩⟩]⟩),
          Except.ok (), Except.ok (), 1, 2, 3⟩).writes
      = [⟨some (jsTrim "hi"), Role.user, 1⟩,
         ⟨extractModelResponse ⟨some [⟨some ⟨some [⟨some "Hello"⟩]⟩⟩]⟩,
           Role.model, 2⟩] ∧
    extractModelResponse ⟨some [⟨some ⟨some [⟨some "Hello"⟩]⟩⟩]⟩
      = (firstPart ⟨some [⟨some ⟨some [⟨some "Hello"⟩]⟩⟩]⟩).elim
          (some fallbackResponse) GeminiPart.text :=
  sendMessage_appends_extracted_response _ _ 200 _ (by decide) rfl rfl
    (by decide) rfl

/-- C5: every push delivered by the thread-list subscription replaces the
local thread cache in full with the pushed list; a push of the empty list
triggers creation of a default thread `{title: "New Chat", createdAt: now}`
(given a resolved identity and a successful store write); and one
reconciliation step later — the next push, which contains at least the
created thread — the cache is non-empty. -/
theorem threadsSnapshot_cache_and_default (s s2 : AppState)
    (pushed l : List Chat) (env env2 : NewChatEnv) (u docId : String)
    (hu : s.user = some u) (hw : env.addResult = Except.ok docId)
    (hl : l ≠ []) :
    (handleThreadsSnapshot s pushed env).state.chats = pushed ∧
    (handleThreadsSnapshot s [] env).writes = [⟨"New Chat", env.now⟩] ∧
    (handleThreadsSnapshot s2 l env2).state.chats ≠ [] := by
  refine ⟨?_, ?_, ?_⟩
  · unfold handleThreadsSnapshot
    rcases pushed with _ | ⟨c, rest⟩
    · unfold handleNewChat
      dsimp only
      rw [if_neg (by simp [hu] : ¬ (s.user = none)), hw]
    · dsimp only
      by_cases ha : s.activeChatId = none
      · rw [if_pos ha]
      · rw [if_neg ha]
  · unfold handleThreadsSnapshot handleNewChat
    dsimp only
    rw [if_neg (by simp [hu] : ¬ (s.user = none)), hw]
  · rcases l with _ | ⟨c, rest⟩
    · exact absurd rfl hl
    · unfold handleThreadsSnapshot
      dsimp only
      by_cases ha : s2.activeChatId = none
      · rw [if_pos ha]
        exact List.cons_ne_nil c rest
      · rw [if_neg ha]
        exact List.cons_ne_nil c rest

/-- Evaluation of C5 at a concrete empty push followed by the push that
reflects the created default thread. -/
theorem threadsSnapshot_cache_and_default_witness :
    (handleThreadsSnapshot ⟨some "u1", [⟨"a", "A", 1⟩], some "a", [], "", false⟩
        [] ⟨Except.ok "d1", 7⟩).state.chats = [] ∧
    (handleThreadsSnapshot ⟨some "u1", [⟨"a", "A", 1⟩], some "a", [], "", false⟩
        [] ⟨Except.ok "d1", 7⟩).writes = [⟨"New Chat", 7⟩] ∧
    (handleThreadsSnapshot ⟨some "u1", [], some "d1", [], "", false⟩
        [⟨"d1", "New Chat", 7⟩] ⟨Except.ok "d2", 9⟩).state.chats ≠ [] :=
  threadsSnapshot_cache_and_default _ _ [] _ _ _ "u1" "d1" rfl rfl
    (by decide)

/-- C6: for every `deleteThread(id)` call with a resolved identity whose
store delete succeeds: the chat document is deleted, and if `id` was the
current selection the selection deterministically becomes the first
remaining thread in list order (`none` when no thread remains), while if
`id` was not the selection the selection is unchanged. -/
theorem deleteChat_selects_replacement (s : AppState) (chatId : String)
    (env : DeleteEnv) (u : String) (hu : s.user = some u)
    (hok : env.deleteOk = true) :
    (handleDeleteChat s chatId env).state.activeChatId
      = (if s.activeChatId = some chatId
          then ((s.chats.filter fun c => c.id ≠ chatId).head?.map Chat.id)
          else s.activeChatId) ∧
    (handleDeleteChat s chatId env).deleted = [chatId] := by
  unfold handleDeleteChat
  rw [if_neg (by simp [hu] : ¬ (s.user = none)), hok,
    if_pos (rfl : (true : Bool) = true)]
  by_cases ha : s.activeChatId = some chatId
  · rw [if_pos ha, if_pos ha]
    cases hfil : s.chats.filter (fun c => c.id ≠ chatId) with
    | nil => exact ⟨rfl, rfl⟩
    | cons c2 rest => exact ⟨rfl, rfl⟩
  · rw [if_neg ha, if_neg ha]
    exact ⟨rfl, rfl⟩

/-- Evaluation of C6: deleting the selected middle thread of three selects
the first remaining thread; the thread document is deleted. -/
theorem deleteChat_selects_replacement_witness :
    (handleDeleteChat
        ⟨some "u", [⟨"a", "A", 3⟩, ⟨"b", "B", 2⟩, ⟨"c", "C", 1⟩], some "b",
          [], "", false⟩ "b" ⟨true⟩).state.activeChatId = some "a" ∧
    (handleDeleteChat
        ⟨some "u", [⟨"a", "A", 3⟩, ⟨"b", "B", 2⟩, ⟨"c", "C", 1⟩], some "b",
          [], "", false⟩ "b" ⟨true⟩).deleted = ["b"] :=
  ⟨((deleteChat_selects_replacement
      ⟨some "u", [⟨"a", "A", 3⟩, ⟨"b", "B", 2⟩, ⟨"c", "C", 1⟩], some "b",
        [], "", false⟩ "b" ⟨true⟩ "u" rfl rfl).1).trans (by decide),
    (deleteChat_selects_replacement
      ⟨some "u", [⟨"a", "A", 3⟩, ⟨"b", "B", 2⟩, ⟨"c", "C", 1⟩], some "b",
        [], "", false⟩ "b" ⟨true⟩ "u" rfl rfl).2⟩

/-- C8: a run of the message-sync effect for a newly selected thread tears
the previous subscription down before (React cleanup) establishing the new
one, so only the new thread's subscription is live and a push keyed to any
other (torn-down) subscription leaves the cache untouched; and a run for a
selection that became `none` clears the local message cache to empty. -/
theorem messagesEffect_teardown_and_clear (st st2 : MsgSyncState)
    (u c : String) (usr : Option String) (k : String × String)
    (msgs : List Message) (hk : k ≠ (u, c)) :
    (runMessagesEffect st (some u) (some c)).sub = some (u, c) ∧
    applyMessagesPush (runMessagesEffect st (some u) (some c)) k msgs
      = runMessagesEffect st (some u) (some c) ∧
    (runMessagesEffect st2 usr none).messages = [] := by
  refine ⟨rfl, ?_, ?_⟩
  · unfold applyMessagesPush
    rw [if_neg (by simp [runMessagesEffect]; exact fun hh => hk hh.symm)]
  · rcases usr with _ | u2 <;> rfl

/-- Evaluation of C8: switching to thread `("u1", "b")` discards a stale
push for the previous thread `("u1", "a")`, and deselecting clears the
cache. -/
theorem messagesEffect_teardown_and_clear_witness :
    (runMessagesEffect ⟨some ("u1", "a"), [⟨"m", "x", Role.user, 0⟩]⟩
        (some "u1") (some "b")).sub = some ("u1", "b") ∧
    applyMessagesPush
        (runMessagesEffect ⟨some ("u1", "a"), [⟨"m", "x", Role.user, 0⟩]⟩
          (some "u1") (some "b")) ("u1", "a") [⟨"m2", "y", Role.model, 1⟩]
      = runMessagesEffect ⟨some ("u1", "a"), [⟨"m", "x", Role.user, 0⟩]⟩
          (some "u1") (some "b") ∧
    (runMessagesEffect ⟨some ("u1", "b"), [⟨"m", "x", Role.user, 0⟩]⟩
        (some "u1") none).messages = [] :=
  messagesEffect_teardown_and_clear _ _ "u1" "b" (some "u1") ("u1", "a") _
    (by decide)

/-- C10: `createThread` (the `handleNewChat` handler, also fired by the
automatic default-thread creation) shares the single `isLoading` flag with
the send pipeline: with a resolved identity it sets the flag during its
store write and clears it afterwards for either write outcome, and a
`sendMessage` invoked while the creation is in flight is rejected exactly
like a concurrent send — a complete no-op. -/
theorem newChat_shares_pipeline_flag (s : AppState) (env : NewChatEnv)
    (env' : SendEnv) (u : String) (hu : s.user = some u) :
    (handleNewChat s env).duringWrite.isLoading = true ∧
    (handleNewChat s env).state.isLoading = false ∧
    handleSendMessage (handleNewChat s env).duringWrite env'
      = ⟨(handleNewChat s env).duringWrite, [], none, Except.ok (), none⟩ := by
  unfold handleNewChat
  rw [if_neg (by simp [hu] : ¬ (s.user = none))]
  rcases har : env.addResult with msg | docId <;>
    exact ⟨rfl, rfl,
      handleSendMessage_of_rejects _ _ (Or.inr (Or.inr (Or.inr rfl)))⟩

/-- Evaluation of C10 at a concrete thread creation with a send attempted
mid-flight. -/
theorem newChat_shares_pipeline_flag_witness :
    (handleNewChat ⟨some "u1", [], none, [], "hi", false⟩
        ⟨Except.ok "d1", 5⟩).duringWrite.isLoading = true ∧
    (handleNewChat ⟨some "u1", [], none, [], "hi", false⟩
        ⟨Except.ok "d1", 5⟩).state.isLoading = false ∧
    handleSendMessage
        (handleNewChat ⟨some "u1", [], none, [], "hi", false⟩
          ⟨Except.ok "d1", 5⟩).duringWrite
        ⟨Except.ok (), FetchOutcome.netErr "x", Except.ok (), Except.ok (),
          0, 0, 0⟩
      = ⟨(handleNewChat ⟨some "u1", [], none, [], "hi", false⟩
            ⟨Except.ok "d1", 5⟩).duringWrite, [], none, Except.ok (), none⟩ :=
  newChat_shares_pipeline_flag _ _ _ "u1" rfl

end T3Chat
